import Mathlib

/-!
Verification development for the books.toscrape.com catalog crawler
(src/task-9_3-parsing-1.py).  The Python source is shallowly embedded:
pure functions become Lean functions, the HTTP layer is modelled by an
oracle giving the outcome of each attempt, and side effects (opening the
session, issuing a page fetch, sleeping) are recorded as explicit events.
-/

/-! ## Character-level string helpers

The source calls library functions (`str.strip`, `urllib.parse.urljoin`).
They are modelled here by structurally recursive functions over `List Char`
so that every definition evaluates inside the kernel.
-/

/-- Model of Python str.strip applied to a list of characters: drop
whitespace from both ends. -/
def trimChars (l : List Char) : List Char :=
  ((l.dropWhile Char.isWhitespace).reverse.dropWhile Char.isWhitespace).reverse

/-- Model of Python str.strip on strings. -/
def pyStrip (s : String) : String :=
  String.mk (trimChars s.data)

/-- True when the character list contains the scheme separator "://". -/
def hasSchemeSep : List Char → Bool
  | ':' :: '/' :: '/' :: _ => true
  | _ :: rest => hasSchemeSep rest
  | [] => false

/-- Split a character list around the first occurrence of "://",
returning the parts before and after it. -/
def splitSchemeSep : List Char → Option (List Char × List Char)
  | ':' :: '/' :: '/' :: rest => some ([], rest)
  | c :: rest => (splitSchemeSep rest).map (fun p => (c :: p.1, p.2))
  | [] => none

/-- Longest prefix of the list that ends with a slash, when the list
contains a slash at all. -/
def upToLastSlash : List Char → Option (List Char)
  | [] => none
  | c :: rest =>
    match upToLastSlash rest with
    | some t => some (c :: t)
    | none => if c = '/' then some ['/'] else none

/-- Model of urllib.parse.urljoin as the program uses it: absolute
http(s) base URLs with plain paths (no query string, fragment or
dot-segments).  An empty relative link returns the base unchanged, an
absolute link replaces the base, a root-relative link keeps only the
scheme and host of the base, and any other link replaces the last path
segment of the base. -/
def urljoin (base rel : String) : String :=
  match rel.data with
  | [] => base
  | rchars =>
    if hasSchemeSep rchars then rel
    else
      match splitSchemeSep base.data with
      | some (sc, rest) =>
        if rchars.head? = some '/' then
          String.mk (sc ++ [':', '/', '/'] ++ rest.takeWhile (fun c => c ≠ '/') ++ rchars)
        else
          match upToLastSlash rest with
          | some pre => String.mk (sc ++ [':', '/', '/'] ++ pre ++ rchars)
          | none => String.mk (base.data ++ '/' :: rchars)
      | none =>
        match upToLastSlash base.data with
        | some pre => String.mk (pre ++ rchars)
        | none => rel

/-! ## Configuration (source lines 16-42) -/

/-- Embedding of the frozen dataclass ParserConfig.  Delays are modelled
as rationals; max_retries is a Python int, hence an Int. -/
structure ParserConfig where
  base_url : String
  headers : List (String × String)
  delay_seconds : Rat × Rat
  max_retries : Int
  timeout_seconds : Int
  retry_statuses : List Nat := [403, 408, 429, 500, 502, 503, 504]
deriving DecidableEq

/-- Embedding of DEFAULT_CONFIG (source lines 26-42). -/
def DEFAULT_CONFIG : ParserConfig :=
  { base_url := "https://books.toscrape.com/"
  , headers :=
      [ ("User-Agent", "Mozilla/5.0 (Windows NT 10.0; Win64; x64) AppleWebKit/537.36 (KHTML, like Gecko) Chrome/120.0.0.0 Safari/537.36")
      , ("Accept", "text/html,application/xhtml+xml,application/xml;q=0.9,*/*;q=0.8")
      , ("Accept-Language", "en-US,en;q=0.9")
      , ("Connection", "keep-alive")
      , ("Referer", "https://www.google.com/") ]
  , delay_seconds := (3/2, 7/2)
  , max_retries := 5
  , timeout_seconds := 20 }

/-! ## Retrying fetcher (source lines 46-93)

One call to session.get either yields a Response or raises a
RequestException; the environment is an oracle mapping the attempt
number (1-based) to that outcome.  The embedding additionally counts
the attempts actually made and the randomized sleeps taken, which in
the source are observable side effects of the loop body. -/

/-- Embedding of requests.Response as the fetcher uses it: a status
code and a body text. -/
structure Response where
  status_code : Nat
  text : String
deriving DecidableEq

/-- Outcome of one session.get call: a response, or a raised
RequestException (network error, timeout, DNS failure, ...). -/
inductive AttemptOutcome where
  | resp (r : Response)
  | exc
deriving DecidableEq

/-- Observable result of one fetch_with_retries call: the returned
value together with how many attempts were made and how many retry
sleeps were taken. -/
structure FetchRun where
  result : Option Response
  attemptsMade : Nat
  sleeps : Nat
deriving DecidableEq

/-- One iteration of the fetch_with_retries loop body (source lines
61-91): status 200 returns the response at once, a status in
retry_statuses and a network exception sleep and go on with the
remaining attempts (rest), any other status is fatal for the page. -/
def fetchStep (config : ParserConfig) (a : AttemptOutcome) (rest : FetchRun) : FetchRun :=
  match a with
  | AttemptOutcome.resp r =>
    if r.status_code = 200 then ⟨some r, 1, 0⟩
    else if r.status_code ∈ config.retry_statuses then
      ⟨rest.result, rest.attemptsMade + 1, rest.sleeps + 1⟩
    else ⟨none, 1, 0⟩
  | AttemptOutcome.exc =>
    ⟨rest.result, rest.attemptsMade + 1, rest.sleeps + 1⟩

/-- Attempt loop of fetch_with_retries (source lines 60-93): k attempts
remain and i is the 1-based number of the next attempt; falling out of
the loop returns None (source line 93). -/
def fetchLoop (config : ParserConfig) (attempts : Nat → AttemptOutcome) :
    Nat → Nat → FetchRun
  | 0, _ => ⟨none, 0, 0⟩
  | k + 1, i => fetchStep config (attempts i) (fetchLoop config attempts k (i + 1))

/-- Embedding of fetch_with_retries (source lines 51-93).  Python
iterates attempt over range(1, max_retries + 1), which is empty when
max_retries is not positive. -/
def fetch_with_retries (config : ParserConfig) (attempts : Nat → AttemptOutcome) : FetchRun :=
  fetchLoop config attempts config.max_retries.toNat 1

/-- Decidable form of the retryable-outcome classification used by the
loop: a response whose status is not 200 but lies in retry_statuses, or
a network exception. -/
def retryableB (config : ParserConfig) (a : AttemptOutcome) : Bool :=
  match a with
  | AttemptOutcome.resp r =>
    decide (¬ r.status_code = 200 ∧ r.status_code ∈ config.retry_statuses)
  | AttemptOutcome.exc => true

/-! ## Page extractor (source lines 97-139)

BeautifulSoup is a library; the embedding starts from its output: the
page is a list of item cards (article.product_pod) plus the optional
href of the single li.next anchor.  Each card records the attributes
and element texts the extractor reads, with `none` for an absent
attribute or element; get_text of an element is modelled as the text of
the element followed by the stripping the source requests. -/

/-- One article.product_pod card as the extractor sees it. -/
structure Card where
  title_attr : Option String
  href_attr : Option String
  price_text : Option String
  availability_text : Option String
  rating_classes : Option (List String)
deriving DecidableEq

/-- One parsed catalog page: the item cards in document order and the
href of the li.next anchor when present. -/
structure Doc where
  cards : List Card
  next_href : Option String
deriving DecidableEq

/-- One extracted row (source lines 125-133), before the driver adds
the page number. -/
structure BookRow where
  title : String
  price_raw : String
  availability : String
  rating : String
  product_url : String
deriving DecidableEq

/-- Per-card extraction (source lines 102-133). -/
def parse_book_card (page_url : String) (card : Card) : BookRow :=
  { title := pyStrip (card.title_attr.getD "")
  , price_raw :=
      match card.price_text with
      | some s => pyStrip s
      | none => ""
  , availability :=
      match card.availability_text with
      | some s => pyStrip s
      | none => ""
  , rating :=
      match card.rating_classes with
      | some classes => (classes.find? (fun c => c != "star-rating")).getD ""
      | none => ""
  , product_url := urljoin page_url (pyStrip (card.href_attr.getD "")) }

/-- Embedding of parse_books_from_catalog_page (source lines 97-139):
extract every card in document order and resolve the next-page link
against the current page URL. -/
def parse_books_from_catalog_page (doc : Doc) (page_url : String) :
    List BookRow × Option String :=
  (doc.cards.map (parse_book_card page_url), doc.next_href.map (urljoin page_url))

/-! ## Traversal driver (source lines 143-176) -/

/-- A row tagged with the page number the driver adds (source line 163). -/
structure TaggedRow extends BookRow where
  page_num : Nat
deriving DecidableEq

/-- Tag every row of one page with its page number. -/
def tagRows (n : Nat) (rows : List BookRow) : List TaggedRow :=
  rows.map (fun r => TaggedRow.mk r n)

/-- Side effects of the driver, in order of occurrence: creating the
requests.Session, one fetch_with_retries call for a page URL, and one
sleep_human politeness delay.  The source never closes the session, so
closeSession exists in the alphabet only to state that fact. -/
inductive Event where
  | openSession
  | fetchPage (url : String)
  | sleepDelay
  | closeSession
deriving DecidableEq

/-- Loop body of scrape_all_books (source lines 150-173).  The fetch
environment maps a URL to the parsed document of the response body when
fetch_with_retries succeeds, and to none when it ultimately fails.  The
fuel bounds the number of iterations; every theorem below supplies
enough fuel for the run it describes.  Returns the accumulated rows and
the event trace of the loop. -/
def scrapeGo (fetch : String → Option Doc) :
    Nat → Option String → Nat → List TaggedRow → List TaggedRow × List Event
  | _, none, _, acc => (acc, [])
  | 0, some _, _, acc => (acc, [])
  | fuel + 1, some url, page_num, acc =>
    match fetch url with
    | none => (acc, [Event.fetchPage url])
    | some doc =>
      let pr := parse_books_from_catalog_page doc url
      let tagged := tagRows (page_num + 1) pr.1
      if pr.1 = [] then (acc ++ tagged, [Event.fetchPage url])
      else
        let rest := scrapeGo fetch fuel pr.2 (page_num + 1) (acc ++ tagged)
        (rest.1, Event.fetchPage url :: Event.sleepDelay :: rest.2)

/-- Embedding of scrape_all_books (source lines 143-176): open a
session, start at urljoin(base_url, "catalogue/page-1.html") with the
page counter at 0 and an empty accumulator, and run the loop. -/
def scrape_all_books (fetch : String → Option Doc) (config : ParserConfig)
    (fuel : Nat) : List TaggedRow × List Event :=
  let run := scrapeGo fetch fuel
    (some (urljoin config.base_url "catalogue/page-1.html")) 0 []
  (run.1, Event.openSession :: run.2)

/-! ## Cleaning and validation (source lines 180-223) -/

/-- Convert a run of decimal digits to its value; none when the list is
empty or contains a non-digit.  Models the numeric part of
pd.to_numeric. -/
def digitsValAux : List Char → Nat → Option Nat
  | [], acc => some acc
  | c :: rest, acc =>
    if c.isDigit then digitsValAux rest (acc * 10 + (c.toNat - 48)) else none

/-- Value of a non-empty all-digit character list. -/
def digitsVal : List Char → Option Nat
  | [] => none
  | l => digitsValAux l 0

/-- Split a character list around the first dot. -/
def splitFirstDot : List Char → Option (List Char × List Char)
  | [] => none
  | '.' :: rest => some ([], rest)
  | c :: rest => (splitFirstDot rest).map (fun p => (c :: p.1, p.2))

/-- Model of pd.to_numeric with errors="coerce" on the digit-and-dot
strings produced by the price cleanup: a plain natural number or a
decimal fraction parses, anything else (empty string, several dots)
coerces to NaN, modelled as none. -/
def parse_decimal (s : String) : Option Rat :=
  match splitFirstDot s.data with
  | none => (digitsVal s.data).map (fun n => (n : Rat))
  | some (w, f) =>
    if f.contains '.' then none
    else
      match digitsVal w, digitsVal f with
      | some n, some d => some ((n : Rat) + (d : Rat) / (10 : Rat) ^ f.length)
      | _, _ => none

/-- Model of the regex cleanup on price_raw (source lines 186-190):
remove every character that is not a digit or a dot. -/
def strip_non_numeric (s : String) : String :=
  String.mk (s.data.filter (fun c => c.isDigit || c == '.'))

/-- A row of the cleaned dataframe: the raw columns plus the numeric
price column price_gbp (none models NaN). -/
structure CleanRow extends TaggedRow where
  price_gbp : Option Rat
deriving DecidableEq

/-- Deduplication loop behind df.drop_duplicates(subset=["product_url"]):
keep the first row carrying each product URL, in order. -/
def dedupLoop (seen : List String) : List CleanRow → List CleanRow
  | [] => []
  | r :: rs =>
    if r.product_url ∈ seen then dedupLoop seen rs
    else r :: dedupLoop (r.product_url :: seen) rs

/-- Embedding of the deduplication step (source line 206). -/
def drop_duplicates_by_url (df : List CleanRow) : List CleanRow :=
  dedupLoop [] df

/-- Embedding of clean_and_validate (source lines 180-223): reject an
empty dataframe with a ValueError, otherwise add the numeric price
column and deduplicate by product URL.  The data-quality ratios and the
by-rating aggregation of the source are printed only and do not change
the returned rows, so they are not part of the returned value. -/
def clean_and_validate (df : List TaggedRow) : Except String (List CleanRow) :=
  if df = [] then Except.error "No data scraped: dataframe is empty"
  else
    Except.ok (drop_duplicates_by_url
      (df.map (fun r => CleanRow.mk r (parse_decimal (strip_non_numeric r.price_raw)))))

/-! ## Lemmas about the retrying fetcher -/

/-- One-step unfolding of the attempt loop. -/
theorem fetchLoop_succ (config : ParserConfig) (attempts : Nat → AttemptOutcome)
    (k i : Nat) :
    fetchLoop config attempts (k + 1) i =
      fetchStep config (attempts i) (fetchLoop config attempts k (i + 1)) := rfl

/-- A retryable outcome hands control to the remaining attempts,
adding one attempt and one sleep. -/
theorem fetchStep_retryable (config : ParserConfig) (a : AttemptOutcome)
    (rest : FetchRun) (h : retryableB config a = true) :
    fetchStep config a rest = ⟨rest.result, rest.attemptsMade + 1, rest.sleeps + 1⟩ := by
  cases a with
  | resp r =>
    have hr := of_decide_eq_true h
    simp only [fetchStep, if_neg hr.1, if_pos hr.2]
  | exc => rfl

/-- When every attempt in the window is retryable, the loop exhausts
its budget: k attempts, k sleeps, and a terminal failure. -/
theorem fetchLoop_all_retryable (config : ParserConfig) (attempts : Nat → AttemptOutcome) :
    ∀ k i, (∀ j, i ≤ j → j < i + k → retryableB config (attempts j) = true) →
      fetchLoop config attempts k i = ⟨none, k, k⟩ := by
  intro k
  induction k with
  | zero => intro i _; rfl
  | succ k ih =>
    intro i h
    have hi : retryableB config (attempts i) = true := h i (Nat.le_refl i) (by omega)
    have hrest : fetchLoop config attempts k (i + 1) = ⟨none, k, k⟩ :=
      ih (i + 1) (fun j hj1 hj2 => h j (by omega) (by omega))
    rw [fetchLoop_succ, fetchStep_retryable config _ _ hi, hrest]

/-- When the first k-1 attempts of the window are retryable and the
k-th returns status 200, the loop returns that response after exactly
k attempts and k-1 sleeps. -/
theorem fetchLoop_success_at (config : ParserConfig) (attempts : Nat → AttemptOutcome)
    (r : Response) (h200 : r.status_code = 200) :
    ∀ k i, 1 ≤ k → (∀ j, i ≤ j → j < i + k - 1 → retryableB config (attempts j) = true) →
      attempts (i + k - 1) = AttemptOutcome.resp r →
      fetchLoop config attempts k i = ⟨some r, k, k - 1⟩ := by
  intro k
  induction k with
  | zero => intro i h; omega
  | succ k ih =>
    intro i _ hpre hk
    cases k with
    | zero =>
      have hi : attempts i = AttemptOutcome.resp r := by
        have : i + 1 - 1 = i := by omega
        rwa [this] at hk
      rw [fetchLoop_succ, hi]
      simp only [fetchStep, if_pos h200]
    | succ k' =>
      have hi : retryableB config (attempts i) = true :=
        hpre i (Nat.le_refl i) (by omega)
      have hrest : fetchLoop config attempts (k' + 1) (i + 1) = ⟨some r, k' + 1, k'⟩ := by
        have harg : attempts (i + 1 + (k' + 1) - 1) = AttemptOutcome.resp r := by
          have : i + 1 + (k' + 1) - 1 = i + (k' + 1 + 1) - 1 := by omega
          rwa [this]
        have := ih (i + 1) (by omega)
          (fun j hj1 hj2 => hpre j (by omega) (by omega)) harg
        simpa using this
      rw [fetchLoop_succ, fetchStep_retryable config _ _ hi, hrest]
      rfl

/-- C1: for a configured retry count R ≥ 1, if the first R-1 attempts
are retryable (retryable status or network error) and the R-th attempt
returns status 200, fetch_with_retries returns that success after at
most R attempts; if all R attempts are retryable, it returns the
terminal failure None. -/
theorem fetch_with_retries_retry_spec (config : ParserConfig)
    (attempts : Nat → AttemptOutcome) (R : Nat) (hR : 1 ≤ R)
    (hcfg : config.max_retries = (R : Int)) :
    ((∀ j, j < R → 1 ≤ j → retryableB config (attempts j) = true) →
      ∀ r : Response, r.status_code = 200 → attempts R = AttemptOutcome.resp r →
        (fetch_with_retries config attempts).result = some r ∧
        (fetch_with_retries config attempts).attemptsMade ≤ R) ∧
    ((∀ j, j ≤ R → 1 ≤ j → retryableB config (attempts j) = true) →
      (fetch_with_retries config attempts).result = none) := by
  have htn : config.max_retries.toNat = R := by omega
  constructor
  · intro hpre r h200 hlast
    have hargs : attempts (1 + R - 1) = AttemptOutcome.resp r := by
      have : 1 + R - 1 = R := by omega
      rwa [this]
    have := fetchLoop_success_at config attempts r h200 R 1 hR
      (fun j hj1 hj2 => hpre j (by omega) hj1) hargs
    unfold fetch_with_retries
    rw [htn, this]
    exact ⟨rfl, Nat.le_refl R⟩
  · intro hpre
    have := fetchLoop_all_retryable config attempts R 1
      (fun j hj1 hj2 => hpre j (by omega) hj1)
    unfold fetch_with_retries
    rw [htn, this]

/-- Attempt oracle for the C1 witness: four retryable 503 responses,
then a 200 success on attempt five. -/
def c1Attempts : Nat → AttemptOutcome := fun i =>
  if i < 5 then AttemptOutcome.resp ⟨503, ""⟩ else AttemptOutcome.resp ⟨200, "ok"⟩

/-- Witness for C1 at DEFAULT_CONFIG (max_retries = 5). -/
theorem fetch_with_retries_retry_spec_witness :
    (fetch_with_retries DEFAULT_CONFIG c1Attempts).result = some ⟨200, "ok"⟩ ∧
    (fetch_with_retries DEFAULT_CONFIG c1Attempts).attemptsMade ≤ 5 :=
  (fetch_with_retries_retry_spec DEFAULT_CONFIG c1Attempts 5 (by decide) rfl).1
    (by decide) ⟨200, "ok"⟩ rfl (by decide)

/-- C2: an attempt that returns a response whose status is neither 200
nor in the retryable set makes the fetch fail at once: from that point
the loop performs exactly one attempt and no retry sleep and returns
None; in particular on the first attempt fetch_with_retries returns
None with exactly one attempt made. -/
theorem fetch_with_retries_nonretryable_fatal (config : ParserConfig)
    (attempts : Nat → AttemptOutcome) (i : Nat) (r : Response)
    (hresp : attempts i = AttemptOutcome.resp r)
    (h200 : ¬ r.status_code = 200)
    (hnr : ¬ r.status_code ∈ config.retry_statuses) :
    (∀ k, 1 ≤ k → fetchLoop config attempts k i = ⟨none, 1, 0⟩) ∧
    (i = 1 → 1 ≤ config.max_retries →
      fetch_with_retries config attempts = ⟨none, 1, 0⟩) := by
  have hloop : ∀ k, 1 ≤ k → fetchLoop config attempts k i = ⟨none, 1, 0⟩ := by
    intro k hk
    cases k with
    | zero => omega
    | succ k =>
      rw [fetchLoop_succ, hresp]
      simp only [fetchStep, if_neg h200, if_neg hnr]
  refine ⟨hloop, ?_⟩
  intro hi hmax
  subst hi
  have h1 : 1 ≤ config.max_retries.toNat := by omega
  unfold fetch_with_retries
  exact hloop config.max_retries.toNat h1

/-- Attempt oracle for the C2 witness: every attempt returns a 404. -/
def c2Attempts : Nat → AttemptOutcome := fun _ => AttemptOutcome.resp ⟨404, "not found"⟩

/-- Witness for C2 at DEFAULT_CONFIG: a 404 on the first attempt gives
None with exactly one attempt and no sleep. -/
theorem fetch_with_retries_nonretryable_fatal_witness :
    fetch_with_retries DEFAULT_CONFIG c2Attempts = ⟨none, 1, 0⟩ :=
  (fetch_with_retries_nonretryable_fatal DEFAULT_CONFIG c2Attempts 1 ⟨404, "not found"⟩
    rfl (by decide) (by decide)).2 rfl (by decide)

/-- C10: when max_retries is not positive, the attempt loop body never
runs: fetch_with_retries makes zero attempts, takes zero delays, and
returns the terminal failure None. -/
theorem fetch_with_retries_nonpositive_retries (config : ParserConfig)
    (attempts : Nat → AttemptOutcome) (h : config.max_retries ≤ 0) :
    fetch_with_retries config attempts = ⟨none, 0, 0⟩ := by
  have htn : config.max_retries.toNat = 0 := by omega
  unfold fetch_with_retries
  rw [htn]
  rfl

/-- Configuration for the C10 witness: DEFAULT_CONFIG with a negative
retry budget. -/
def c10Config : ParserConfig := { DEFAULT_CONFIG with max_retries := -2 }

/-- Witness for C10: with max_retries = -2 no attempt is made at all. -/
theorem fetch_with_retries_nonpositive_retries_witness :
    fetch_with_retries c10Config c2Attempts = ⟨none, 0, 0⟩ :=
  fetch_with_retries_nonpositive_retries c10Config c2Attempts (by decide)

/-! ## Claims about the page extractor -/

/-- C3 (amended): on a page whose cards each carry a title attribute
with non-whitespace content and an href, the extractor returns exactly
one record per card, in document order; each record has a non-empty
title, its product_url is the stripped href of its card resolved
against the page URL, and a card without a star-rating marker yields
the empty rating.  (The amendment: the title attribute must be
non-empty after stripping; an empty title attribute satisfies the
original claim wording but produces an empty title, see the
counterexample.) -/
theorem parse_books_wellformed_cards (doc : Doc) (page_url : String)
    (hwf : ∀ c ∈ doc.cards,
      c.title_attr ≠ none ∧ pyStrip (c.title_attr.getD "") ≠ "" ∧ c.href_attr ≠ none) :
    (parse_books_from_catalog_page doc page_url).1.length = doc.cards.length ∧
    ∀ i (hi : i < (parse_books_from_catalog_page doc page_url).1.length)
      (hc : i < doc.cards.length),
      ((parse_books_from_catalog_page doc page_url).1.get ⟨i, hi⟩).title ≠ "" ∧
      ((parse_books_from_catalog_page doc page_url).1.get ⟨i, hi⟩).product_url =
        urljoin page_url (pyStrip ((doc.cards.get ⟨i, hc⟩).href_attr.getD "")) ∧
      ((doc.cards.get ⟨i, hc⟩).rating_classes = none →
        ((parse_books_from_catalog_page doc page_url).1.get ⟨i, hi⟩).rating = "") := by
  refine ⟨by simp [parse_books_from_catalog_page], ?_⟩
  intro i hi hc
  have hget : (parse_books_from_catalog_page doc page_url).1.get ⟨i, hi⟩ =
      parse_book_card page_url (doc.cards.get ⟨i, hc⟩) := by
    simp [parse_books_from_catalog_page, List.get_eq_getElem]
  have hmem : doc.cards.get ⟨i, hc⟩ ∈ doc.cards := List.get_mem doc.cards i hc
  obtain ⟨ht, hts, hh⟩ := hwf _ hmem
  refine ⟨?_, ?_, ?_⟩
  · rw [hget]; exact hts
  · rw [hget]; rfl
  · intro hrat
    rw [hget]
    rw [List.get_eq_getElem] at hrat
    simp [parse_book_card, hrat]

/-- Page URL shared by the extractor examples. -/
def exUrl : String := "https://books.toscrape.com/catalogue/page-1.html"

/-- Two well-formed cards for the C3 witness. -/
def c3Doc : Doc :=
  ⟨[ ⟨some "Alpha", some "alpha.html", some "£10.00", some "In stock", some ["star-rating", "Three"]⟩
   , ⟨some " Beta ", some "beta.html", some "£35.00", some "In stock", none⟩ ], some "page-2.html"⟩

/-- Witness for C3 (amended) on a concrete two-card page. -/
theorem parse_books_wellformed_cards_witness :
    (parse_books_from_catalog_page c3Doc exUrl).1.length = c3Doc.cards.length ∧
    (parse_books_from_catalog_page c3Doc exUrl).1.map BookRow.title = ["Alpha", "Beta"] :=
  ⟨(parse_books_wellformed_cards c3Doc exUrl (by decide)).1, by decide⟩

/-- Single card whose title attribute is present but empty: it carries
a title attribute and an href, yet the extracted title is empty. -/
def c3xDoc : Doc := ⟨[⟨some "", some "cat.html", none, none, none⟩], none⟩

/-- Counterexample to C3 as stated: a card with a (present) title
attribute and an href whose extracted record has an empty title. -/
theorem parse_books_empty_title_attr_counterexample :
    (c3xDoc.cards.map Card.title_attr = [some ""]) ∧
    (c3xDoc.cards.map Card.href_attr = [some "cat.html"]) ∧
    (parse_books_from_catalog_page c3xDoc exUrl).1.map BookRow.title = [""] := by
  decide

/-- C4 (amended): the extractor never fails on a card with missing
optional parts; it still returns one record per card, and in the record
of a card the missing pieces degrade as follows: a missing price
element, availability element, rating marker or title attribute yields
the empty string in the corresponding field, while a missing href
yields the resolution of the empty relative link against the page URL
(which is the page URL itself, not the empty string, see the
counterexample). -/
theorem parse_books_missing_fields_degrade (doc : Doc) (page_url : String) :
    (parse_books_from_catalog_page doc page_url).1.length = doc.cards.length ∧
    ∀ i (hi : i < (parse_books_from_catalog_page doc page_url).1.length)
      (hc : i < doc.cards.length),
      ((doc.cards.get ⟨i, hc⟩).price_text = none →
        ((parse_books_from_catalog_page doc page_url).1.get ⟨i, hi⟩).price_raw = "") ∧
      ((doc.cards.get ⟨i, hc⟩).availability_text = none →
        ((parse_books_from_catalog_page doc page_url).1.get ⟨i, hi⟩).availability = "") ∧
      ((doc.cards.get ⟨i, hc⟩).rating_classes = none →
        ((parse_books_from_catalog_page doc page_url).1.get ⟨i, hi⟩).rating = "") ∧
      ((doc.cards.get ⟨i, hc⟩).title_attr = none →
        ((parse_books_from_catalog_page doc page_url).1.get ⟨i, hi⟩).title = "") ∧
      ((doc.cards.get ⟨i, hc⟩).href_attr = none →
        ((parse_books_from_catalog_page doc page_url).1.get ⟨i, hi⟩).product_url =
          urljoin page_url "") := by
  refine ⟨by simp [parse_books_from_catalog_page], ?_⟩
  intro i hi hc
  have hget : (parse_books_from_catalog_page doc page_url).1.get ⟨i, hi⟩ =
      parse_book_card page_url (doc.cards.get ⟨i, hc⟩) := by
    simp [parse_books_from_catalog_page, List.get_eq_getElem]
  rw [hget]
  have hps : pyStrip "" = "" := rfl
  refine ⟨?_, ?_, ?_, ?_, ?_⟩ <;> intro h <;> rw [List.get_eq_getElem] at h <;>
    simp [parse_book_card, h, hps]

/-- Page with one card missing every optional part and one intact
card, for the C4 witness. -/
def c4Doc : Doc :=
  ⟨[ ⟨none, none, none, none, none⟩
   , ⟨some "Gamma", some "gamma.html", some "£5.00", some "In stock", some ["star-rating", "One"]⟩
   ], none⟩

/-- Witness for C4 (amended): the all-missing card degrades to empty
fields without losing the other card. -/
theorem parse_books_missing_fields_degrade_witness :
    (parse_books_from_catalog_page c4Doc exUrl).1.length = c4Doc.cards.length ∧
    ((parse_books_from_catalog_page c4Doc exUrl).1.map BookRow.price_raw = ["", "£5.00"]) :=
  ⟨(parse_books_missing_fields_degrade c4Doc exUrl).1, by decide⟩

/-- Page with a single card whose href is absent. -/
def c4xDoc : Doc := ⟨[⟨some "NoLink", none, none, none, none⟩], none⟩

/-- Counterexample to C4 as stated: when the href is missing, the
product_url field of the record is the page URL itself (urljoin of the
empty link), not the empty string. -/
theorem parse_books_missing_href_counterexample :
    (c4xDoc.cards.map Card.href_attr = [none]) ∧
    (parse_books_from_catalog_page c4xDoc exUrl).1.map BookRow.product_url = [exUrl] ∧
    exUrl ≠ "" := by
  decide

/-! ## Lemmas about the traversal driver -/

/-- Expected output of a run over the listed pages when the driver
starts with its page counter at n: the rows of the k-th listed page
(0-based) are tagged with page number n + k + 1, so with page numbers
1, 2, 3, ... when the counter starts at 0. -/
def chainRows : Nat → List (String × Doc) → List TaggedRow
  | _, [] => []
  | n, p :: rest =>
    tagRows (n + 1) (parse_books_from_catalog_page p.2 p.1).1 ++ chainRows (n + 1) rest

/-- Event trace of the loop over the listed pages when every page is
fetched and non-empty: one fetch and one politeness sleep per page. -/
def chainTrace : List (String × Doc) → List Event
  | [] => []
  | p :: rest => Event.fetchPage p.1 :: Event.sleepDelay :: chainTrace rest

/-- A complete linear chain of pages starting at a URL: every page is
fetched successfully, parses to at least one record, links to the next
listed page, and the last page has no next link. -/
inductive PageChain (fetch : String → Option Doc) : String → List (String × Doc) → Prop where
  | last : ∀ url doc, fetch url = some doc →
      (parse_books_from_catalog_page doc url).1 ≠ [] →
      (parse_books_from_catalog_page doc url).2 = none →
      PageChain fetch url [(url, doc)]
  | cons : ∀ url doc url2 rest, fetch url = some doc →
      (parse_books_from_catalog_page doc url).1 ≠ [] →
      (parse_books_from_catalog_page doc url).2 = some url2 →
      PageChain fetch url2 rest →
      PageChain fetch url ((url, doc) :: rest)

/-- A successful run over listed pages that leaves the driver pointing
at a further URL (stop): every listed page is fetched, non-empty, and
links to the next; the last link points at stop. -/
inductive GoodRun (fetch : String → Option Doc) :
    String → List (String × Doc) → String → Prop where
  | nil : ∀ url, GoodRun fetch url [] url
  | cons : ∀ url doc url2 rest stop, fetch url = some doc →
      (parse_books_from_catalog_page doc url).1 ≠ [] →
      (parse_books_from_catalog_page doc url).2 = some url2 →
      GoodRun fetch url2 rest stop →
      GoodRun fetch url ((url, doc) :: rest) stop

/-- The loop stops as soon as the current URL is absent. -/
theorem scrapeGo_none (fetch : String → Option Doc) (fuel page_num : Nat)
    (acc : List TaggedRow) : scrapeGo fetch fuel none page_num acc = (acc, []) := by
  cases fuel <;> rfl

/-- Loop step when the fetch of the current page fails: return the
accumulator, having fetched only this page. -/
theorem scrapeGo_fetch_fail (fetch : String → Option Doc) (fuel page_num : Nat)
    (url : String) (acc : List TaggedRow) (hf : fetch url = none) :
    scrapeGo fetch (fuel + 1) (some url) page_num acc = (acc, [Event.fetchPage url]) := by
  simp only [scrapeGo, hf]

/-- Loop step when the page fetches but parses to zero records: return
the accumulator, having fetched only this page. -/
theorem scrapeGo_empty_page (fetch : String → Option Doc) (fuel page_num : Nat)
    (url : String) (acc : List TaggedRow) (doc : Doc) (hf : fetch url = some doc)
    (he : (parse_books_from_catalog_page doc url).1 = []) :
    scrapeGo fetch (fuel + 1) (some url) page_num acc = (acc, [Event.fetchPage url]) := by
  simp only [scrapeGo, hf, he, if_pos, tagRows, List.map_nil, List.append_nil]

/-- Loop step when the page fetches and has records: tag and append
them, then continue at the next link with the counter advanced. -/
theorem scrapeGo_good_page (fetch : String → Option Doc) (fuel page_num : Nat)
    (url : String) (acc : List TaggedRow) (doc : Doc) (hf : fetch url = some doc)
    (hne : (parse_books_from_catalog_page doc url).1 ≠ []) :
    scrapeGo fetch (fuel + 1) (some url) page_num acc =
      ((scrapeGo fetch fuel (parse_books_from_catalog_page doc url).2 (page_num + 1)
          (acc ++ tagRows (page_num + 1) (parse_books_from_catalog_page doc url).1)).1,
       Event.fetchPage url :: Event.sleepDelay ::
         (scrapeGo fetch fuel (parse_books_from_catalog_page doc url).2 (page_num + 1)
            (acc ++ tagRows (page_num + 1) (parse_books_from_catalog_page doc url).1)).2) := by
  simp only [scrapeGo, hf, if_neg hne]

/-- A complete chain is traversed in full: the rows of every page are
appended in page order with consecutive page numbers, and every page
is fetched once and followed by one politeness sleep. -/
theorem scrapeGo_of_chain (fetch : String → Option Doc) :
    ∀ {url pages}, PageChain fetch url pages →
      ∀ fuel page_num acc, pages.length ≤ fuel →
        scrapeGo fetch fuel (some url) page_num acc =
          (acc ++ chainRows page_num pages, chainTrace pages) := by
  intro url pages h
  induction h with
  | last url doc hf hne hnx =>
    intro fuel page_num acc hfuel
    cases fuel with
    | zero => simp at hfuel
    | succ f =>
      rw [scrapeGo_good_page fetch f page_num url acc doc hf hne, hnx,
        scrapeGo_none fetch f (page_num + 1)]
      simp [chainRows, chainTrace]
  | cons url doc url2 rest hf hne hnx _ ih =>
    intro fuel page_num acc hfuel
    cases fuel with
    | zero => simp at hfuel
    | succ f =>
      rw [scrapeGo_good_page fetch f page_num url acc doc hf hne, hnx,
        ih f (page_num + 1) (acc ++ tagRows (page_num + 1)
          (parse_books_from_catalog_page doc url).1) (by simp at hfuel; omega)]
      simp [chainRows, chainTrace, List.append_assoc]

/-- A good run followed by a terminally failing or empty page returns
exactly the rows of the good pages and fetches nothing beyond the
failing page. -/
theorem scrapeGo_of_goodrun (fetch : String → Option Doc) :
    ∀ {url pages stop}, GoodRun fetch url pages stop →
      (fetch stop = none ∨
        ∃ doc, fetch stop = some doc ∧ (parse_books_from_catalog_page doc stop).1 = []) →
      ∀ fuel page_num acc, pages.length < fuel →
        scrapeGo fetch fuel (some url) page_num acc =
          (acc ++ chainRows page_num pages,
           chainTrace pages ++ [Event.fetchPage stop]) := by
  intro url pages stop h
  induction h with
  | nil url =>
    intro hbad fuel page_num acc hfuel
    cases fuel with
    | zero => simp at hfuel
    | succ f =>
      cases hbad with
      | inl hf =>
        rw [scrapeGo_fetch_fail fetch f page_num url acc hf]
        simp [chainRows, chainTrace]
      | inr hex =>
        obtain ⟨doc, hf, he⟩ := hex
        rw [scrapeGo_empty_page fetch f page_num url acc doc hf he]
        simp [chainRows, chainTrace]
  | cons url doc url2 rest stop2 hf hne hnx _ ih =>
    intro hbad fuel page_num acc hfuel
    cases fuel with
    | zero => simp at hfuel
    | succ f =>
      rw [scrapeGo_good_page fetch f page_num url acc doc hf hne, hnx,
        ih hbad f (page_num + 1) (acc ++ tagRows (page_num + 1)
          (parse_books_from_catalog_page doc url).1) (by simp at hfuel; omega)]
      simp [chainRows, chainTrace, List.append_assoc]

/-! ## Claims about the traversal driver -/

/-- C5: over a linear chain of pages in which every fetch succeeds and
every page has at least one record, scrape_all_books returns the
concatenation of the page records in page-then-card order, the k-th
followed page tagged with page_num k (1-based, incremented by one per
followed next link); the trace is one fetch and one politeness sleep
per page after the session is opened. -/
theorem scrape_all_books_chain (fetch : String → Option Doc) (config : ParserConfig)
    (fuel : Nat) (pages : List (String × Doc)) (url0 : String)
    (hurl : url0 = urljoin config.base_url "catalogue/page-1.html")
    (hchain : PageChain fetch url0 pages) (hfuel : pages.length ≤ fuel) :
    scrape_all_books fetch config fuel =
      (chainRows 0 pages, Event.openSession :: chainTrace pages) := by
  unfold scrape_all_books
  rw [← hurl, scrapeGo_of_chain fetch hchain fuel 0 [] hfuel]
  simp

/-- First page URL of the witness runs. -/
def wUrl1 : String := "https://books.toscrape.com/catalogue/page-1.html"

/-- Second page URL of the witness runs. -/
def wUrl2 : String := "https://books.toscrape.com/catalogue/page-2.html"

/-- Third page URL of the witness runs. -/
def wUrl3 : String := "https://books.toscrape.com/catalogue/page-3.html"

/-- Page 1 of the C5 witness chain: one card, links to page 2. -/
def wDoc1 : Doc :=
  ⟨[⟨some "Alpha", some "alpha.html", some "£10.00", some "In stock", some ["star-rating", "Three"]⟩],
   some "page-2.html"⟩

/-- Page 2 of the C5 witness chain: one card, links to page 3. -/
def wDoc2 : Doc :=
  ⟨[⟨some "Beta", some "beta.html", some "£35.00", some "Out of stock", some ["star-rating", "One"]⟩],
   some "page-3.html"⟩

/-- Page 3 of the C5 witness chain: one card, no next link. -/
def wDoc3 : Doc :=
  ⟨[⟨some "Gamma", some "gamma.html", some "£5.00", some "In stock", none⟩], none⟩

/-- Fetch environment of the C5 witness: all three pages succeed. -/
def wFetch : String → Option Doc := fun u =>
  if u = wUrl1 then some wDoc1
  else if u = wUrl2 then some wDoc2
  else if u = wUrl3 then some wDoc3
  else none

/-- The three-page witness chain. -/
def wPages : List (String × Doc) := [(wUrl1, wDoc1), (wUrl2, wDoc2), (wUrl3, wDoc3)]

/-- Witness for C5: the synthetic 3-page chain is traversed in full. -/
theorem scrape_all_books_chain_witness :
    scrape_all_books wFetch DEFAULT_CONFIG 3 =
      (chainRows 0 wPages, Event.openSession :: chainTrace wPages) :=
  scrape_all_books_chain wFetch DEFAULT_CONFIG 3 wPages wUrl1 (by decide)
    (PageChain.cons wUrl1 wDoc1 wUrl2 [(wUrl2, wDoc2), (wUrl3, wDoc3)] (by decide)
      (by decide) (by decide)
      (PageChain.cons wUrl2 wDoc2 wUrl3 [(wUrl3, wDoc3)] (by decide) (by decide) (by decide)
        (PageChain.last wUrl3 wDoc3 (by decide) (by decide) (by decide))))
    (by decide)

/-- C6: when the fetch of some page ultimately fails, or a fetched page
parses to zero records, the driver stops at that page: it returns
exactly the rows accumulated from the previously completed pages, and
the failing page is the last page fetched (no later page appears in the
trace and no error is raised; the loop result is an ordinary value). -/
theorem scrape_all_books_partial_stop (fetch : String → Option Doc) (config : ParserConfig)
    (fuel : Nat) (pages : List (String × Doc)) (url0 stop : String)
    (hurl : url0 = urljoin config.base_url "catalogue/page-1.html")
    (hrun : GoodRun fetch url0 pages stop)
    (hbad : fetch stop = none ∨
      ∃ doc, fetch stop = some doc ∧ (parse_books_from_catalog_page doc stop).1 = [])
    (hfuel : pages.length < fuel) :
    scrape_all_books fetch config fuel =
      (chainRows 0 pages,
       Event.openSession :: (chainTrace pages ++ [Event.fetchPage stop])) := by
  unfold scrape_all_books
  rw [← hurl, scrapeGo_of_goodrun fetch hrun hbad fuel 0 [] hfuel]
  simp

/-- Fetch environment of the C6 witness: page 1 succeeds, the fetch of
page 2 ultimately fails. -/
def w6Fetch : String → Option Doc := fun u =>
  if u = wUrl1 then some wDoc1 else none

/-- Witness for C6: the run stops at page 2 and keeps the rows of
page 1 only. -/
theorem scrape_all_books_partial_stop_witness :
    scrape_all_books w6Fetch DEFAULT_CONFIG 2 =
      (chainRows 0 [(wUrl1, wDoc1)],
       Event.openSession ::
         (chainTrace [(wUrl1, wDoc1)] ++ [Event.fetchPage wUrl2])) :=
  scrape_all_books_partial_stop w6Fetch DEFAULT_CONFIG 2 [(wUrl1, wDoc1)] wUrl1 wUrl2
    (by decide)
    (GoodRun.cons wUrl1 wDoc1 wUrl2 [] wUrl2 (by decide) (by decide) (by decide)
      (GoodRun.nil wUrl2))
    (Or.inl (by decide)) (by decide)

/-! ## Claim about the session resource -/

/-- The loop itself never emits a closeSession event. -/
theorem scrapeGo_no_close (fetch : String → Option Doc) :
    ∀ fuel current page_num acc,
      Event.closeSession ∉ (scrapeGo fetch fuel current page_num acc).2 := by
  intro fuel
  induction fuel with
  | zero =>
    intro current page_num acc
    cases current <;> simp [scrapeGo]
  | succ f ih =>
    intro current page_num acc
    cases current with
    | none => simp [scrapeGo]
    | some url =>
      cases hf : fetch url with
      | none => rw [scrapeGo_fetch_fail fetch f page_num url acc hf]; simp
      | some doc =>
        by_cases he : (parse_books_from_catalog_page doc url).1 = []
        · rw [scrapeGo_empty_page fetch f page_num url acc doc hf he]; simp
        · rw [scrapeGo_good_page fetch f page_num url acc doc hf he]
          simp only [List.mem_cons]
          push_neg
          exact ⟨by simp, by simp, ih _ _ _⟩

/-- C9 (refuted by the code): scrape_all_books opens the session but on
no path of the loop does it ever close it: for every fetch environment,
configuration and fuel, the event trace of the run contains openSession
and never contains closeSession.  The source binds requests.Session()
at line 144 and reaches the end of the function without session.close()
or a with-block, so the spec requirement that the session be released
on every exit path does not hold in the code. -/
theorem scrape_all_books_session_not_closed (fetch : String → Option Doc)
    (config : ParserConfig) (fuel : Nat) :
    Event.openSession ∈ (scrape_all_books fetch config fuel).2 ∧
    Event.closeSession ∉ (scrape_all_books fetch config fuel).2 := by
  unfold scrape_all_books
  refine ⟨List.mem_cons_self _ _, ?_⟩
  simp only [List.mem_cons]
  push_neg
  exact ⟨by simp, scrapeGo_no_close fetch fuel _ 0 []⟩

/-! ## Claims about the cleaning stage -/

/-- The keep-first deduplication loop is idempotent for any starting
set of already-seen URLs. -/
theorem dedupLoop_idem (l : List CleanRow) :
    ∀ seen, dedupLoop seen (dedupLoop seen l) = dedupLoop seen l := by
  induction l with
  | nil => intro seen; rfl
  | cons r rs ih =>
    intro seen
    by_cases h : r.product_url ∈ seen
    · simp only [dedupLoop, if_pos h]
      exact ih seen
    · simp only [dedupLoop, if_neg h]
      rw [ih (r.product_url :: seen)]

/-- C7: the deduplication step on product_url is idempotent: applying
drop_duplicates_by_url to its own output returns that output
unchanged; in particular it is the identity on a set already free of
duplicate product URLs. -/
theorem drop_duplicates_by_url_idempotent (df : List CleanRow) :
    drop_duplicates_by_url (drop_duplicates_by_url df) = drop_duplicates_by_url df :=
  dedupLoop_idem df []

/-- C8: a crawl run that yields no records returns normally with the
empty row list, and clean_and_validate rejects that empty dataset with
the ValueError message instead of proceeding. -/
theorem clean_and_validate_rejects_empty_crawl (fetch : String → Option Doc)
    (config : ParserConfig) (fuel : Nat)
    (h : (scrape_all_books fetch config fuel).1 = []) :
    clean_and_validate (scrape_all_books fetch config fuel).1 =
      Except.error "No data scraped: dataframe is empty" := by
  rw [h]
  rfl

/-- Fetch environment of the C8 witness: every fetch ultimately fails,
so the very first page already fails and the crawl accumulates nothing. -/
def w8Fetch : String → Option Doc := fun _ => none

/-- Witness for C8: the all-failing crawl produces the empty row list
and the cleaning stage rejects it. -/
theorem clean_and_validate_rejects_empty_crawl_witness :
    clean_and_validate (scrape_all_books w8Fetch DEFAULT_CONFIG 3).1 =
      Except.error "No data scraped: dataframe is empty" :=
  clean_and_validate_rejects_empty_crawl w8Fetch DEFAULT_CONFIG 3 (by decide)
